import Mathlib

/-!
Verification development for the FM-AI gateway (`mesh_server/llm-proxy.py`).

The gateway's request-handling pipeline is shallowly embedded: JSON values are
an inductive type, the mutable rate-limit dictionary is threaded explicitly,
time is rational, and the boundaries to external systems (the Supabase key
store, the JWT library, the `tiktoken` tokenizer, Python's `ast`/`json`
parsers, the operating-system subprocess and filesystem) are oracle
parameters.  Each definition transcribes the corresponding Python function.
-/

namespace LlmProxy

/-- JSON values as exchanged by the gateway (Python dicts are ordered
association lists; numbers are modelled as rationals). -/
inductive JVal where
  | null : JVal
  | bool (b : Bool) : JVal
  | num (q : Rat) : JVal
  | str (s : String) : JVal
  | arr (xs : List JVal) : JVal
  | obj (fields : List (String × JVal)) : JVal
deriving Repr

/-- A JSON object body: an ordered association list, as a Python dict. -/
abbrev Body := List (String × JVal)

/-- First-match association-list lookup, as Python dict indexing. -/
def jLookup (b : Body) (k : String) : Option JVal :=
  match b with
  | [] => none
  | (k2, v) :: rest => if k2 = k then some v else jLookup rest k

/-- `body.get(k, d)` on a dict. -/
def jGetD (b : Body) (k : String) (d : JVal) : JVal := (jLookup b k).getD d

/-- `v.get(k, d)` where `v` is expected to be a dict.  A non-dict receiver
would raise in the source; those call sites are unreachable on validated
traffic, and we return the default there. -/
def jGetDflt (v : JVal) (k : String) (d : JVal) : JVal :=
  match v with
  | .obj fs => jGetD fs k d
  | _ => d

/-- `v[0]` on a JSON list with the nonempty-default convention of the source
(`data.get(key, [{}])[0]`); an empty or non-list value would raise in the
source and is mapped to the supplied default. -/
def jIndex0 (v : JVal) (d : JVal) : JVal :=
  match v with
  | .arr (x :: _) => x
  | _ => d

/-- Python truthiness of a JSON value. -/
def pyTruthy : JVal → Bool
  | .null => false
  | .bool b => b
  | .num q => q != 0
  | .str s => s != ""
  | .arr xs => !xs.isEmpty
  | .obj fs => !fs.isEmpty

/-- Python truthiness of an optional string (None and the empty string are
falsy). -/
def optTruthy : Option String → Bool
  | none => false
  | some s => s != ""

/-- One escaped character of `json.dumps` string output (the escapes the
gateway's payloads can contain). -/
def escChar (c : Char) : String :=
  if c = '\"' then "\\\""
  else if c = '\\' then "\\\\"
  else if c = '\n' then "\\n"
  else String.singleton c

/-- JSON string-body escaping. -/
def escape (s : String) : String := String.join (s.data.map escChar)

/-- Rendering of a JSON number as `json.dumps` renders Python ints (the only
numbers the gateway itself produces are integral counts). -/
def numRepr (q : Rat) : String :=
  if q.den = 1 then toString q.num else toString q.num ++ "/" ++ toString q.den

mutual

/-- `json.dumps` with its default separators. -/
def dumps : JVal → String
  | .null => "null"
  | .bool true => "true"
  | .bool false => "false"
  | .num q => numRepr q
  | .str s => "\"" ++ escape s ++ "\""
  | .arr xs => "[" ++ dumpsList xs ++ "]"
  | .obj fs => "\x7b" ++ dumpsObj fs ++ "\x7d"

/-- Comma-joined rendering of a JSON list's elements. -/
def dumpsList : List JVal → String
  | [] => ""
  | [x] => dumps x
  | x :: xs => dumps x ++ ", " ++ dumpsList xs

/-- Comma-joined rendering of a JSON object's fields. -/
def dumpsObj : List (String × JVal) → String
  | [] => ""
  | [(k, v)] => "\"" ++ escape k ++ "\": " ++ dumps v
  | (k, v) :: fs => "\"" ++ escape k ++ "\": " ++ dumps v ++ ", " ++ dumpsObj fs

end

/-- Helper for `str.split()`: accumulate the current word (reversed) while
scanning, dropping empty words, as Python does for runs of whitespace. -/
def wsSplitAux : List Char → List Char → List String
  | [], acc => if acc.isEmpty then [] else [String.mk acc.reverse]
  | c :: rest, acc =>
    if c.isWhitespace then
      if acc.isEmpty then wsSplitAux rest []
      else String.mk acc.reverse :: wsSplitAux rest []
    else wsSplitAux rest (c :: acc)

/-- Python `str.split()` with no arguments: split on runs of whitespace,
discarding leading, trailing and empty pieces. -/
def pySplit (s : String) : List String := wsSplitAux s.data []

/-- Python `str.strip()`. -/
def pyStrip (s : String) : String :=
  String.mk (((s.data.dropWhile Char.isWhitespace).reverse.dropWhile Char.isWhitespace).reverse)

/-- Python `str.lower()` on the ASCII provider names the gateway compares. -/
def pyLower (s : String) : String := String.mk (s.data.map Char.toLower)

/-- `s.startswith(p)`. -/
def strStartsWith (s p : String) : Bool := List.isPrefixOf p.data s.data

/-- Whether `needle` occurs as a contiguous substring of `haystack`. -/
def strContains (haystack needle : String) : Bool :=
  decide (needle.data <:+: haystack.data)

/-- The characters of `"Bearer "`, the prefix stripped from auth headers. -/
def bearerPat : List Char := ['B', 'e', 'a', 'r', 'e', 'r', ' ']

/-- Replace-all of the pattern `"Bearer "` by the empty string, scanning left
to right without overlap, as Python `str.replace` does. -/
def stripBearerList : List Char → List Char
  | [] => []
  | c :: rest =>
    if bearerPat.isPrefixOf (c :: rest) then stripBearerList ((c :: rest).drop 7)
    else c :: stripBearerList rest
termination_by l => l.length
decreasing_by
  · simp only [List.length_drop, List.length_cons]
    omega
  · simp

/-- `auth_header.replace('Bearer ', '')`. -/
def stripBearer (s : String) : String := String.mk (stripBearerList s.data)

/-- The five upstream providers of `PROVIDER_CONFIG`. -/
inductive Provider where
  | openai | anthropic | gemini | lmstudio | ollama
deriving DecidableEq, Repr

/-- The provider's key in `PROVIDER_CONFIG`. -/
def providerName : Provider → String
  | .openai => "openai"
  | .anthropic => "anthropic"
  | .gemini => "gemini"
  | .lmstudio => "lmstudio"
  | .ollama => "ollama"

/-- Membership of a lowercased provider string in `PROVIDER_CONFIG`. -/
def parseProvider (s : String) : Option Provider :=
  if s = "openai" then some .openai
  else if s = "anthropic" then some .anthropic
  else if s = "gemini" then some .gemini
  else if s = "lmstudio" then some .lmstudio
  else if s = "ollama" then some .ollama
  else none

/-- The two local providers, which never require an API key. -/
def localProviders : List Provider := [.lmstudio, .ollama]

/-- The endpoints of the two local backends, set at startup from the command
line or the port defaults. -/
structure GatewayConfig where
  ollamaEndpoint : String
  lmstudioEndpoint : String
deriving Repr

/-- `PROVIDER_CONFIG[provider]['endpoint']`: hosted endpoints are literals,
local endpoints come from startup configuration. -/
def endpointFor (cfg : GatewayConfig) : Provider → String
  | .openai => "https://api.openai.com/v1"
  | .anthropic => "https://api.anthropic.com/v1"
  | .gemini => "https://generativelanguage.googleapis.com/v1"
  | .lmstudio => cfg.lmstudioEndpoint
  | .ollama => cfg.ollamaEndpoint

/-- `PROVIDER_CONFIG[provider]['key']`: initialized to `None` for every
provider and never assigned anywhere in the program (the startup code only
assigns the `endpoint` fields of the local providers). -/
def providerConfigKey : Provider → Option String := fun _ => none

/-- The accepted request types of `validate_llm_input`. -/
def validTypes : List String := ["chat", "embeddings", "models", "tokenize"]

/-- The request's `type` field when it is a string, `""` otherwise (a
non-string value would compare unequal to every accepted type in the
source, exactly as `""` does here). -/
def bodyTypeStr (body : Body) : String :=
  match jLookup body ("type") with
  | some (.str t) => t
  | _ => ""

/-- `validate_llm_input(provider, body)`: the error message for an invalid
request, `none` when valid. -/
def validate_llm_input (provider : String) (body : Body) : Option String :=
  if provider = "" || (parseProvider provider).isNone then
    some ("Invalid provider")
  else if body.isEmpty then
    some ("Missing request body")
  else if !(validTypes.contains (bodyTypeStr body)) then
    some ("Invalid type (must be \x27chat\x27, \x27embeddings\x27, \x27models\x27, or \x27tokenize\x27)")
  else
    let t := bodyTypeStr body
    if t = "chat" && (jLookup body ("messages")).isNone then
      some ("Missing \x27messages\x27 for chat request")
    else if t = "embeddings" && (jLookup body ("input")).isNone then
      some ("Missing \x27input\x27 for embeddings request")
    else if (t = "chat" || t = "embeddings") && (jLookup body ("model")).isNone then
      some ("Missing \x27model\x27 parameter")
    else if t = "tokenize" && (jLookup body ("text")).isNone then
      some ("Missing \x27text\x27 for tokenize request")
    else if t = "tokenize" && (jLookup body ("model")).isNone then
      some ("Missing \x27model\x27 parameter for tokenize request")
    else
      none

/-- One entry of `rate_limit_map`: `\x7b'count': ..., 'last_reset': ...\x7d`. -/
structure RateEntry where
  count : Nat
  last_reset : Rat
deriving Repr, DecidableEq

/-- The in-memory `rate_limit_map`, keyed by user id or client address. -/
abbrev RateMap := List (String × RateEntry)

/-- Dict write `m[k] = v`: replace in place, or append a fresh key. -/
def mapSet (m : RateMap) (k : String) (v : RateEntry) : RateMap :=
  match m with
  | [] => [(k, v)]
  | (k2, v2) :: rest => if k2 = k then (k, v) :: rest else (k2, v2) :: mapSet rest k v

/-- Dict read `m.get(k)`. -/
def mapGet (m : RateMap) (k : String) : Option RateEntry :=
  match m with
  | [] => none
  | (k2, v) :: rest => if k2 = k then some v else mapGet rest k

/-- `RATE_LIMIT = 60` requests per minute per identifier. -/
def RATE_LIMIT : Nat := 60

/-- `rate_limit(identifier)` at time `now`, returning the admission decision
together with the updated map.  A fresh identifier is inserted with count 1
and admitted; an entry whose window has strictly elapsed
(`now - last_reset > 60`) is reset to count 1; otherwise the count is
incremented and the call admitted iff the new count stays within
`RATE_LIMIT`. -/
def rate_limit (m : RateMap) (now : Rat) (identifier : String) : Bool × RateMap :=
  match mapGet m identifier with
  | none => (true, mapSet m identifier ⟨1, now⟩)
  | some entry =>
    let entry2 :=
      if now - entry.last_reset > 60 then RateEntry.mk 1 now
      else RateEntry.mk (entry.count + 1) entry.last_reset
    (decide (entry2.count ≤ RATE_LIMIT), mapSet m identifier entry2)

/-- The headers dict every proxied call starts from. -/
def contentTypeHeader : List (String × String) := [("Content-Type", "application/json")]

/-- The `tiktoken` encoder as an oracle: model name and text to token ids.
`none` models the `ImportError` path (library not installed). -/
abbrev Tokenizer := String → String → List Int

/-- The external Supabase `key_store` table as an oracle:
`(user_id, provider)` to the stored API key row. -/
abbrev SupabaseStore := String → String → Option String

/-- `get_api_key_from_supabase(user_id, provider)`: `None` when the Supabase
client was never initialized, otherwise the key-store row's `api_key` (the
source's unwrapping of the library response object is collapsed into the
oracle function). -/
def get_api_key_from_supabase (client : Option SupabaseStore)
    (user_id provider : String) : Option String :=
  match client with
  | none => none
  | some store => store user_id provider

/-- An upstream HTTP request the adapter is about to perform (the model's cut
at the network boundary: `requests.get`/`requests.post` with a 30s timeout). -/
structure UpstreamReq where
  url : String
  method : String
  headers : List (String × String)
  jsonBody : Option Body
deriving Repr

/-- Result of the request-building phase of `proxy_llm_request`: either a
locally computed response (the tokenize early returns) or an upstream call. -/
inductive ProxyStep where
  | localResp (status : Nat) (data : JVal)
  | upstreamCall (u : UpstreamReq)
deriving Repr

/-- The `\x7btokens, token_count\x7d` payload of the tokenize early returns. -/
def tokenizeResult (tokens : List JVal) : ProxyStep :=
  .localResp 200 (.obj [("tokens", .arr tokens), ("token_count", .num (tokens.length : Rat))])

/-- The `tiktoken` token ids as JSON numbers. -/
def intTokens (ids : List Int) : List JVal := ids.map (fun i => .num (i : Rat))

/-- `body.get(k, d)` where the value is used as a string; a present non-string
value would raise downstream in the source. -/
def pyGetStrD (b : Body) (k : String) (d : String) : String :=
  match jLookup b k with
  | some (.str s) => s
  | _ => d

/-- `body.get('options', \x7b\x7d)`; a present non-dict value would raise at the
`**` splice in the source. -/
def jOptions (b : Body) : Body :=
  match jLookup b ("options") with
  | some (.obj fs) => fs
  | _ => []

/-- Python dict-literal merge `\x7b**a, **b\x7d`: keys of `a` in order (with
`b`'s value when overridden), then the new keys of `b`. -/
def pyDictMerge (a b : Body) : Body :=
  a.map (fun kv => match jLookup b kv.1 with | some v => (kv.1, v) | none => kv)
    ++ b.filter (fun kv => (jLookup a kv.1).isNone)

/-- The f-string rendering of `body.get('model')` inside the Gemini URLs
(`None` renders as the string `"None"`). -/
def fstrModel (b : Body) : String :=
  match jLookup b ("model") with
  | some (.str s) => s
  | some v => dumps v
  | none => "None"

/-- `msg.get(k)` on one element of the messages list (`None` when absent). -/
def jGet (v : JVal) (k : String) : JVal := jGetDflt v k .null

/-- The Gemini `contents` array built from `body.get('messages', [])`. -/
def geminiContents (msgs : JVal) : JVal :=
  match msgs with
  | .arr xs =>
    .arr (xs.map (fun m =>
      .obj [("role", jGet m ("role")),
            ("parts", .arr [.obj [("text", jGet m ("content"))]])]))
  | _ => .arr []

/-- `proxy_llm_request(provider, req_type, body, api_key)` up to the network
boundary: the `ValueError` raised for a key-required provider without a key is
the `Except.error`; the tokenize branches return locally; every other branch
produces the upstream URL, method, headers and JSON body exactly as the
source builds them (per-provider suffix, body shape and auth convention). -/
def proxy_llm_request (cfg : GatewayConfig) (tiktoken : Option Tokenizer)
    (p : Provider) (req_type : String) (body : Body) (api_key : Option String) :
    Except String ProxyStep :=
  let url := endpointFor cfg p
  if !optTruthy api_key && !(localProviders.contains p) then
    .error ("No API key provided for " ++ providerName p)
  else
    let provider_key := api_key.getD ""
    match p with
    | .openai =>
      if req_type = "tokenize" then
        match tiktoken with
        | some enc =>
          .ok (tokenizeResult (intTokens (enc (pyGetStrD body ("model") ("gpt-4.1"))
            (pyGetStrD body ("text") ("")))))
        | none =>
          .ok (tokenizeResult ((pySplit (pyGetStrD body ("text") (""))).map .str))
      else
        let step :=
          if req_type = "chat" then
            (url ++ "/chat/completions", "POST",
              pyDictMerge [("model", jGetD body ("model") .null),
                           ("messages", jGetD body ("messages") .null)] (jOptions body))
          else if req_type = "embeddings" then
            (url ++ "/embeddings", "POST",
              pyDictMerge [("model", jGetD body ("model") .null),
                           ("input", jGetD body ("input") .null)] (jOptions body))
          else if req_type = "models" then
            (url ++ "/models", "GET", [])
          else (url, "POST", [])
        let headers := contentTypeHeader
          ++ [("Authorization", "Bearer " ++ provider_key), ("OpenAI-Beta", "assistants=v1")]
        .ok (.upstreamCall ⟨step.1, step.2.1, headers,
          if step.2.1 = "POST" then some step.2.2 else none⟩)
    | .anthropic =>
      if req_type = "tokenize" then
        .ok (tokenizeResult ((pySplit (pyGetStrD body ("text") (""))).map .str))
      else
        let step :=
          if req_type = "chat" then
            (url ++ "/messages", "POST",
              pyDictMerge [("model", jGetD body ("model") .null),
                           ("messages", jGetD body ("messages") .null)] (jOptions body))
          else if req_type = "embeddings" then
            (url ++ "/embeddings", "POST",
              pyDictMerge [("model", jGetD body ("model") .null),
                           ("input", jGetD body ("input") .null)] (jOptions body))
          else if req_type = "models" then
            (url ++ "/models", "GET", [])
          else (url, "POST", [])
        let headers := contentTypeHeader
          ++ [("x-api-key", provider_key), ("anthropic-version", "2023-06-01")]
        .ok (.upstreamCall ⟨step.1, step.2.1, headers,
          if step.2.1 = "POST" then some step.2.2 else none⟩)
    | .gemini =>
      if req_type = "tokenize" then
        .ok (tokenizeResult ((pySplit (pyGetStrD body ("text") (""))).map .str))
      else
        let step :=
          if req_type = "chat" then
            (url ++ "/models/" ++ fstrModel body ++ ":generateContent?key=" ++ provider_key,
              "POST",
              [("contents", geminiContents (jGetD body ("messages") (.arr []))),
               ("generationConfig", .obj (pyDictMerge
                 [("temperature", jGetD (jOptions body) ("temperature") (.num (7/10)))]
                 (jOptions body)))])
          else if req_type = "embeddings" then
            (url ++ "/models/" ++ fstrModel body ++ ":embedContent?key=" ++ provider_key,
              "POST",
              pyDictMerge
                [("content", .obj [("parts", .arr [.obj [("text", jGetD body ("input") .null)]])])]
                (jOptions body))
          else if req_type = "models" then
            (url ++ "/models?key=" ++ provider_key, "GET", [])
          else (url, "POST", [])
        .ok (.upstreamCall ⟨step.1, step.2.1, contentTypeHeader,
          if step.2.1 = "POST" then some step.2.2 else none⟩)
    | .lmstudio =>
      if req_type = "tokenize" then
        .ok (tokenizeResult ((pySplit (pyGetStrD body ("text") (""))).map .str))
      else
        let step :=
          if req_type = "chat" then
            (url ++ "/chat/completions", "POST",
              pyDictMerge [("model", jGetD body ("model") .null),
                           ("messages", jGetD body ("messages") .null)] (jOptions body))
          else if req_type = "embeddings" then
            (url ++ "/embeddings", "POST",
              pyDictMerge [("model", jGetD body ("model") .null),
                           ("input", jGetD body ("input") .null)] (jOptions body))
          else if req_type = "models" then
            (url ++ "/models", "GET", [])
          else (url, "POST", [])
        .ok (.upstreamCall ⟨step.1, step.2.1, contentTypeHeader,
          if step.2.1 = "POST" then some step.2.2 else none⟩)
    | .ollama =>
      if req_type = "tokenize" then
        .ok (tokenizeResult ((pySplit (pyGetStrD body ("text") (""))).map .str))
      else
        let step :=
          if req_type = "chat" then
            (url ++ "/chat", "POST",
              pyDictMerge [("model", jGetD body ("model") .null),
                           ("messages", jGetD body ("messages") .null)] (jOptions body))
          else if req_type = "embeddings" then
            (url ++ "/embeddings", "POST",
              pyDictMerge [("model", jGetD body ("model") .null),
                           ("input", jGetD body ("input") .null)] (jOptions body))
          else if req_type = "models" then
            (url ++ "/tags", "GET", [])
          else (url, "POST", [])
        .ok (.upstreamCall ⟨step.1, step.2.1, contentTypeHeader,
          if step.2.1 = "POST" then some step.2.2 else none⟩)

/-- `format_llm_response(provider, req_type, data)`: chat responses are
reduced to `\x7bcontent\x7d` through each provider's nesting; everything else is
passed through unchanged. -/
def format_llm_response (p : Provider) (req_type : String) (data : JVal) : JVal :=
  if req_type = "chat" then
    match p with
    | .openai =>
      .obj [("content",
        jGetDflt (jGetDflt (jIndex0 (jGetDflt data ("choices") (.arr [.obj []])) (.obj []))
          ("message") (.obj [])) ("content") (.str ("No response")))]
    | .anthropic =>
      .obj [("content",
        jGetDflt (jIndex0 (jGetDflt data ("content") (.arr [.obj []])) (.obj []))
          ("text") (.str ("No response")))]
    | .gemini =>
      .obj [("content",
        jGetDflt (jIndex0
          (jGetDflt (jGetDflt (jIndex0 (jGetDflt data ("candidates") (.arr [.obj []]))
            (.obj [])) ("content") (.obj [])) ("parts") (.arr [.obj []]))
          (.obj [])) ("text") (.str ("No response")))]
    | .lmstudio | .ollama =>
      let c := jGetDflt (jGetDflt (jIndex0 (jGetDflt data ("choices") (.arr [.obj []]))
        (.obj [])) ("message") (.obj [])) ("content") .null
      match c with
      | .null =>
        .obj [("content",
          jGetDflt (jGetDflt data ("message") (.obj [])) ("content") (.str ("No response")))]
      | _ => .obj [("content", c)]
  else
    data

/-- The `/llm` handler's outcome: a structured JSON rejection, a locally
completed response, or the upstream request the gateway is about to perform
(the cut at the provider network call). -/
inductive LlmOutcome where
  | reject (status : Nat) (payload : Body)
  | localDone (status : Nat) (data : JVal)
  | forwardUpstream (u : UpstreamReq)
deriving Repr

/-- `user_id if user_id else client_ip`: the rate-limit identifier. -/
def pyOrId (user_id : Option String) (ip : String) : String :=
  match user_id with
  | some u => if u != "" then u else ip
  | none => ip

/-- `body.get('provider', '').lower()`; a present non-string value would
raise at `.lower()` in the source and cannot name a configured provider. -/
def extractProviderStr (body : Body) : String :=
  match jLookup body ("provider") with
  | some (.str s) => pyLower s
  | _ => ""

/-- The tail of `llm_proxy` from the proxy call on: the `except` branch maps a
raised `ValueError` to a 500 payload; a local result with status ≥ 400 is
reported with the best-effort extracted provider error; otherwise the
formatted response is returned; an upstream request is the cut point. -/
def runProxy (cfg : GatewayConfig) (tiktoken : Option Tokenizer) (p : Provider)
    (providerStr : String) (rest_body : Body) (api_key : Option String)
    (m : RateMap) : LlmOutcome × RateMap :=
  match proxy_llm_request cfg tiktoken p (bodyTypeStr rest_body) rest_body api_key with
  | .error e =>
    (.reject 500 [("error", .str e), ("provider", .str providerStr),
                  ("model", jGetD rest_body ("model") .null)], m)
  | .ok (.localResp st data) =>
    if st ≥ 400 then
      (.reject st [("error", jGetDflt (jGetDflt data ("error") (.obj []))
                      ("message") (.str ("Provider API error"))),
                   ("details", jGetDflt data ("error") data),
                   ("provider", .str providerStr),
                   ("model", jGetD rest_body ("model") .null)], m)
    else
      (.localDone st (format_llm_response p (bodyTypeStr rest_body) data), m)
  | .ok (.upstreamCall u) => (.forwardUpstream u, m)

/-- The body of `llm_proxy` after the auth decorator: rate limiting, JSON
parsing, validation, then credential resolution.  For a key-required provider
with a caller identity, the Supabase lookup is performed but the source then
falls through to an unconditional 400 `No API key returned` response,
discarding a successfully fetched key; without an identity it returns the
`user_id required` 400 first.  Local providers proceed keyless. -/
def llm_proxy_inner (cfg : GatewayConfig) (client : Option SupabaseStore)
    (tiktoken : Option Tokenizer) (user_id : Option String) (client_ip : String)
    (reqJson : Option Body) (m : RateMap) (now : Rat) : LlmOutcome × RateMap :=
  let rid := pyOrId user_id client_ip
  let step := rate_limit m now rid
  if !step.1 then
    (.reject 429 [("error", .str ("Rate limit exceeded")),
                  ("message", .str ("Too many requests, please try again later"))], step.2)
  else
    match reqJson with
    | none => (.reject 400 [("error", .str ("Invalid JSON"))], step.2)
    | some body =>
      let provider := extractProviderStr body
      let rest_body := body.filter (fun kv => kv.1 != "provider")
      match validate_llm_input provider rest_body with
      | some err => (.reject 400 [("error", .str err)], step.2)
      | none =>
        match parseProvider provider with
        | none =>
          -- unreachable: validation already guarantees a configured provider
          (.reject 400 [("error", .str ("Invalid provider"))], step.2)
        | some p =>
          if localProviders.contains p then
            runProxy cfg tiktoken p provider rest_body none step.2
          else if (optTruthy (providerConfigKey p)) then
            -- dead in the program: `PROVIDER_CONFIG[provider]['key']` is never set
            runProxy cfg tiktoken p provider rest_body none step.2
          else
            match user_id with
            | some uid =>
              if uid != "" then
                let _api_key := get_api_key_from_supabase client uid provider
                -- the source logs the lookup outcome and then returns 400
                -- unconditionally, never forwarding the fetched key
                (.reject 400 [("error", .str ("No API key returned for " ++ provider)),
                              ("message", .str ("Please verify your API key is set for the provider"))],
                  step.2)
              else
                (.reject 400 [("error", .str ("user_id required but not found in request")),
                              ("message", .str ("Please provide a user_id in the request for testing"))],
                  step.2)
            | none =>
              (.reject 400 [("error", .str ("user_id required but not found in request")),
                            ("message", .str ("Please provide a user_id in the request for testing"))],
                step.2)

/-- Outcome of `jwt.decode` on the presented token, as an oracle. -/
inductive VerifyResult where
  | valid (sub : Option String) (email : Option String)
  | expired
  | invalid

/-- An inbound HTTP request as the gateway sees it. -/
structure HttpRequest where
  headers : List (String × String)
  remote_addr : String
  jsonBody : Option Body

/-- Header lookup. -/
def headerGet (req : HttpRequest) (k : String) : Option String :=
  match req.headers.find? (fun kv => kv.1 == k) with
  | some kv => some kv.2
  | none => none

/-- The 401 payload for a missing or malformed Authorization header. -/
def unauthorizedMissing : Body :=
  [("error", .str ("Unauthorized")),
   ("message", .str ("Missing or invalid Authorization header"))]

/-- The client address used for rate limiting:
`request.headers.get('X-Forwarded-For', request.remote_addr)`. -/
def clientIp (req : HttpRequest) : String :=
  (headerGet req ("X-Forwarded-For")).getD req.remote_addr

/-- `/llm` end to end: the `jwt_required` decorator (pass-through when auth is
disabled; 401 on a missing/malformed bearer header; token verification via the
oracle) wrapped around `llm_proxy_inner`. -/
def handle_llm (cfg : GatewayConfig) (enable_auth : Bool)
    (verify : String → VerifyResult) (client : Option SupabaseStore)
    (tiktoken : Option Tokenizer) (req : HttpRequest) (m : RateMap) (now : Rat) :
    LlmOutcome × RateMap :=
  if !enable_auth then
    llm_proxy_inner cfg client tiktoken none (clientIp req) req.jsonBody m now
  else
    match headerGet req ("Authorization") with
    | none => (.reject 401 unauthorizedMissing, m)
    | some h =>
      if !strStartsWith h ("Bearer ") then (.reject 401 unauthorizedMissing, m)
      else
        match verify (stripBearer h) with
        | .expired =>
          (.reject 401 [("error", .str ("Unauthorized")), ("message", .str ("Token expired"))], m)
        | .invalid =>
          (.reject 401 [("error", .str ("Unauthorized")), ("message", .str ("Invalid token"))], m)
        | .valid sub _email =>
          llm_proxy_inner cfg client tiktoken sub (clientIp req) req.jsonBody m now

/-- The claims of a minted service token (`exp`, one hour ahead, lives at the
time boundary and is left to the signing oracle). -/
structure ServicePayload where
  is_service : Bool
  service_name : String
  user_id : Option String
deriving Repr, DecidableEq

/-- `create_service_token(user_id)`: raises (`Except.error`) when `JWT_SECRET`
is not configured, otherwise signs the service payload (with `user_id`
included only when truthy) via the `jwt.encode` oracle. -/
def create_service_token (jwt_secret : Option String)
    (sign : ServicePayload → String) (user_id : Option String) :
    Except String String :=
  if !optTruthy jwt_secret then .error ("JWT_SECRET not configured")
  else
    .ok (sign ⟨true, "llm-proxy", if optTruthy user_id then user_id else none⟩)

/-- `get_auth_headers(user_id)`: forward a truthy inbound Authorization header
verbatim; otherwise mint a service token, and on any minting failure swallow
the exception and continue with Content-Type only. -/
def get_auth_headers (inboundAuth : Option String) (jwt_secret : Option String)
    (sign : ServicePayload → String) (user_id : Option String) :
    List (String × String) :=
  if optTruthy inboundAuth then
    contentTypeHeader ++ [("Authorization", inboundAuth.getD "")]
  else
    match create_service_token jwt_secret sign user_id with
    | .ok token => contentTypeHeader ++ [("Authorization", "Bearer " ++ token)]
    | .error _ => contentTypeHeader

/-- Outcome of the gateway's `__main__` configuration phase. -/
inductive StartupOutcome where
  | fatalError (msg : String)
  | serverRuns (jwt_secret : Option String)
deriving Repr, DecidableEq

/-- The `__main__` check `if ENABLE_AUTH and not JWT_SECRET`: the source logs
a warning and assigns the literal fallback secret, then continues to serve;
no configuration state is treated as fatal. -/
def gateway_startup (enable_auth : Bool) (jwt_secret : Option String) : StartupOutcome :=
  if enable_auth && !optTruthy jwt_secret then
    .serverRuns (some ("insecure-default-secret"))
  else
    .serverRuns jwt_secret

/-- Verified claims of a token presented to the data-store middleware. -/
structure DsClaims where
  sub : Option String
  email : Option String
  is_service : Bool
  service_name : Option String
  acting_user_id : Option String
deriving Repr

/-- `jwt.decode` outcome for the data-store middleware, as an oracle. -/
inductive DsVerifyResult where
  | valid (c : DsClaims)
  | expired
  | invalid

/-- Result of the data-store `jwt_required` gate. -/
inductive DsGate where
  | passed (user_id : Option String)
  | rejected (status : Nat) (payload : Body)
deriving Repr

/-- `data_store/auth.py jwt_required`: pass-through when auth is disabled;
401 on a missing/malformed bearer header; 500 `Server configuration error`
when `JWT_SECRET` is unset at verification time; otherwise the verified
claims resolve the effective user id (a service token's `user_id` claim
overrides `sub`). -/
def ds_jwt_required (enable_auth : Bool) (jwt_secret : Option String)
    (verify : String → DsVerifyResult) (authHeader : Option String) : DsGate :=
  if !enable_auth then .passed none
  else
    match authHeader with
    | none => .rejected 401 unauthorizedMissing
    | some h =>
      if !strStartsWith h ("Bearer ") then .rejected 401 unauthorizedMissing
      else if !optTruthy jwt_secret then
        .rejected 500 [("error", .str ("Server configuration error")),
                       ("message", .str ("JWT_SECRET not configured"))]
      else
        match verify (stripBearer h) with
        | .expired =>
          .rejected 401 [("error", .str ("Unauthorized")), ("message", .str ("Token expired"))]
        | .invalid =>
          .rejected 401 [("error", .str ("Unauthorized")), ("message", .str ("Invalid token"))]
        | .valid c =>
          .passed (if c.is_service && c.acting_user_id.isSome then c.acting_user_id else c.sub)

/-! ## The `/execute` code sandbox -/

/-- A decorator node as `extract_function_info` inspects it: an `ast.Name`,
an `ast.Call` whose callee may or may not carry an `id` attribute
(`getattr(decorator.func, 'id', '')`), or any other expression. -/
inductive PyDecorator where
  | nameRef (id : String)
  | callRef (funcId : Option String)
  | otherDeco
deriving Repr, DecidableEq

/-- A Python statement as far as `ast.walk`'s search for `FunctionDef` nodes
is concerned: function definitions carry their name, positional argument
names and decorators; class bodies and compound statements carry nested
statements; everything else has no statement children. -/
inductive PyStmt where
  | funcDef (name : String) (args : List String) (decorators : List PyDecorator)
      (body : List PyStmt)
  | classDef (name : String) (body : List PyStmt)
  | simpleStmt
  | compoundStmt (body : List PyStmt)
deriving Repr

/-- The nested statements `ast.iter_child_nodes` exposes to the walk (the
expression children of a node contain no `FunctionDef`s and are omitted). -/
def PyStmt.children : PyStmt → List PyStmt
  | .funcDef _ _ _ b => b
  | .classDef _ b => b
  | .simpleStmt => []
  | .compoundStmt b => b

mutual

/-- The number of statement nodes in a statement, counting itself. -/
def PyStmt.size : PyStmt → Nat
  | .funcDef _ _ _ b => 1 + sizeList b
  | .classDef _ b => 1 + sizeList b
  | .simpleStmt => 1
  | .compoundStmt b => 1 + sizeList b

/-- Total statement-node count of a list of statements. -/
def sizeList : List PyStmt → Nat
  | [] => 0
  | s :: rest => PyStmt.size s + sizeList rest

end

/-- `ast.walk`: breadth-first traversal of the statement queue, yielding the
head and enqueueing its children, exactly as the `deque`-based generator in
the standard library does. -/
def walkBFS (q : List PyStmt) : List PyStmt :=
  match q with
  | [] => []
  | s :: rest => s :: walkBFS (rest ++ s.children)
termination_by sizeList q
decreasing_by
  have happ : ∀ a b : List PyStmt, sizeList (a ++ b) = sizeList a + sizeList b := by
    intro a b
    induction a with
    | nil => simp [sizeList]
    | cons x xs ih => simp [sizeList, ih]; omega
  have hchild : sizeList s.children < PyStmt.size s := by
    cases s <;> simp [PyStmt.children, PyStmt.size, sizeList]
  have hcons : sizeList (s :: rest) = PyStmt.size s + sizeList rest := rfl
  rw [happ]
  omega

/-- Whether a decorator is the recognized `@tool` / `@tool(...)` marker. -/
def decoratorIsTool : PyDecorator → Bool
  | .nameRef id => id == "tool"
  | .callRef (some f) => f == "tool"
  | .callRef none => false
  | .otherDeco => false

/-- What `extract_function_info` records about the found callable. -/
structure FuncInfo where
  name : String
  params : List String
  has_tool_decorator : Bool
deriving Repr, DecidableEq

/-- The info recorded when a node is a `FunctionDef`: its name, its argument
names with `self` skipped, and whether the marker decorator is present. -/
def funcInfoOf : PyStmt → Option FuncInfo
  | .funcDef n args decos _ =>
    some ⟨n, args.filter (fun a => a != "self"), decos.any decoratorIsTool⟩
  | _ => none

/-- The first `FunctionDef` in a node list, in order. -/
def firstFuncInfo (nodes : List PyStmt) : Option FuncInfo :=
  match nodes with
  | [] => none
  | s :: rest =>
    match funcInfoOf s with
    | some i => some i
    | none => firstFuncInfo rest

/-- `extract_function_info(code)` on the parsed tree (`none` models the
`SyntaxError` path, which the source maps to the same no-callable result):
the first `FunctionDef` yielded by `ast.walk`. -/
def extract_function_info (tree : Option (List PyStmt)) : Option FuncInfo :=
  match tree with
  | none => none
  | some stmts => firstFuncInfo (walkBFS stmts)

/-- For comparison with the specification's wording: the first *top-level*
function definition of the module, ignoring nested definitions. -/
def firstTopLevelFuncInfo (stmts : List PyStmt) : Option FuncInfo :=
  match stmts with
  | [] => none
  | s :: rest =>
    match funcInfoOf s with
    | some i => some i
    | none => firstTopLevelFuncInfo rest

mutual

/-- Whether any `FunctionDef` occurs in the statement, at any depth. -/
def containsFuncDef : PyStmt → Bool
  | .funcDef _ _ _ _ => true
  | .classDef _ b => containsFuncDefList b
  | .simpleStmt => false
  | .compoundStmt b => containsFuncDefList b

/-- Whether any `FunctionDef` occurs in the list, at any depth. -/
def containsFuncDefList : List PyStmt → Bool
  | [] => false
  | s :: rest => containsFuncDef s || containsFuncDefList rest

end

/-- Outcome of the driver subprocess, as the OS oracle reports it:
a completed run with exit code and captured streams, a hit of the 10-second
budget (`subprocess.TimeoutExpired`), or any other exception inside the
handler's `try` block. -/
inductive RunOutcome where
  | completed (returncode : Int) (stdout : String) (stderr : String)
  | timedOut
  | raised (msg : String)
deriving Repr

/-- The `/execute` JSON response (`output`, `error`, `success`) together with
its HTTP status; early validation failures return 400, everything else 200. -/
structure ExecResponse where
  status : Nat
  output : String
  error : JVal
  success : Bool
deriving Repr

/-- Whether a parsed stdout value is a dict containing an `error` key. -/
def isObjWithError : JVal → Bool
  | .obj fs => (jLookup fs ("error")).isSome
  | _ => false

/-- The output-parsing block of `execute`: strip both streams, attempt to
parse stdout as JSON via the `json.loads` oracle, divert a dict's `error`
value into the error field, re-serialize other parsed values, and compute
`success = (returncode == 0 and not error)` with Python truthiness. -/
def processOutput (loads : String → Option JVal) (returncode : Int)
    (stdout stderr : String) : ExecResponse :=
  let output := pyStrip stdout
  let error : JVal := .str (pyStrip stderr)
  let res :=
    if output != "" then
      match loads output with
      | some parsed =>
        if isObjWithError parsed then ("", jGetDflt parsed ("error") .null)
        else (dumps parsed, error)
      | none => (output, error)
    else (output, error)
  ⟨200, res.1, res.2, decide (returncode = 0) && !pyTruthy res.2⟩

/-- `shutil.rmtree(dir)` on the path-set filesystem model: whether a path is
the directory itself or lies beneath it. -/
def underDir (dir p : String) : Bool :=
  p == dir || List.isPrefixOf (dir ++ "/").data p.data

/-- Remove a directory and everything under it. -/
def rmtree (dir : String) (fs : List String) : List String :=
  fs.filter (fun p => !underDir dir p)

/-- The `try` block of `execute` once the temporary directory exists: write
the submitted source, extract the callable, and either stop with the
no-callable response (no subprocess) or write the wrapper and run the driver,
mapping the three subprocess outcomes to their responses.  Returns the
response, whether a subprocess ran, and the filesystem as the block leaves
it (before `finally`). -/
def execTryBody (loads : String → Option JVal) (pyParse : String → Option (List PyStmt))
    (run : RunOutcome) (temp_dir : String) (code : String) (fs : List String) :
    ExecResponse × Bool × List String :=
  let fs1 := fs ++ [temp_dir ++ "/tool_code.py"]
  match extract_function_info (pyParse code) with
  | none =>
    (⟨200, "", .str ("Could not find a valid function definition in the code"), false⟩,
      false, fs1)
  | some _info =>
    let fs2 := fs1 ++ [temp_dir ++ "/wrapper.py"]
    match run with
    | .completed rc out err => (processOutput loads rc out err, true, fs2)
    | .timedOut =>
      (⟨200, "", .str ("Execution timed out after 10 seconds"), false⟩, true, fs2)
    | .raised msg => (⟨200, "", .str msg, false⟩, true, fs2)

/-- The `/execute` handler over the filesystem model: the two validation
rejections happen before `tempfile.mkdtemp()`; afterwards the `try` block
runs and the `finally` clause removes the temporary directory and all files
inside it on every exit path.  Returns `((response, ran_subprocess),
final_filesystem)`. -/
def execute (loads : String → Option JVal) (pyParse : String → Option (List PyStmt))
    (run : RunOutcome) (temp_dir : String) (reqJson : Option Body)
    (fs : List String) : (ExecResponse × Bool) × List String :=
  match reqJson with
  | none => ((⟨400, "", .str ("No JSON data provided"), false⟩, false), fs)
  | some data =>
    let code :=
      match jLookup data ("code") with
      | some (.str s) => s
      | _ => ""
    if code == "" then ((⟨400, "", .str ("No code provided"), false⟩, false), fs)
    else
      let fs1 := fs ++ [temp_dir]
      let res := execTryBody loads pyParse run temp_dir code fs1
      ((res.1, res.2.1), rmtree temp_dir res.2.2)

/-- The stdout the generated wrapper prints when the callable raises: the
`json.dumps(\x7b"error": str(e)\x7d)` line of `generate_wrapper_code`. -/
def wrapperErrorStdout (msg : String) : String :=
  dumps (.obj [("error", .str msg)])

/-- Whether the credential material `k` occurs anywhere in the upstream
request's URL or header values (the places the adapter injects keys). -/
def mentionsKey (u : UpstreamReq) (k : String) : Bool :=
  strContains u.url k || u.headers.any (fun kv => strContains kv.2 k)

/-! ## Concrete example inputs used by individual theorems -/

/-- A concrete startup configuration (default local endpoints). -/
def cfgFix : GatewayConfig := ⟨"http://localhost:11434/api", "http://localhost:1234/v1"⟩

/-- A concrete key store holding one row: `("u1", "openai") ↦ "sk-test"`. -/
def storeFix : SupabaseStore :=
  fun u p => if u == "u1" && p == "openai" then some ("sk-test") else none

/-- A valid OpenAI chat request body. -/
def openaiChatBody : Body :=
  [("provider", .str ("openai")), ("type", .str ("chat")),
   ("model", .str ("gpt-4.1")), ("messages", .arr [])]

/-- A valid Ollama chat request body carrying an explicit `api_key` field. -/
def ollamaChatBodyWithKey : Body :=
  [("provider", .str ("ollama")), ("type", .str ("chat")), ("model", .str ("m1")),
   ("messages", .arr [.obj [("role", .str ("user")), ("content", .str ("hi"))]]),
   ("api_key", .str ("k1"))]

/-- The upstream request the gateway builds for `ollamaChatBodyWithKey`. -/
def ollamaChatUpstream : UpstreamReq :=
  ⟨"http://localhost:11434/api/chat", "POST", [("Content-Type", "application/json")],
   some [("model", .str ("m1")),
         ("messages", .arr [.obj [("role", .str ("user")), ("content", .str ("hi"))]])]⟩

/-- A parsed module with a single top-level `def add(a, b)`. -/
def astAddModule : List PyStmt := [.funcDef ("add") ["a", "b"] [] []]

/-- An `ast.parse` oracle that parses every source to `astAddModule`. -/
def parseToAdd : String → Option (List PyStmt) := fun _ => some astAddModule

/-- A parsed module whose only function definition is a method nested inside
a class — no top-level callable exists. -/
def astNestedOnly : List PyStmt := [.classDef ("C") [.funcDef ("m") ["self"] [] []]]

/-- An `/execute` request body submitting source and an empty input map. -/
def execBodyFix : Body :=
  [("code", .str ("def add(a, b): return a + b")), ("input", .obj [])]

/-- The driver stdout `\x7b"error": ""\x7d`: a JSON object whose `error` value is
the empty (falsy) string. -/
def emptyErrJson : String := "\x7b\"error\": \"\"\x7d"

/-- A `json.loads` oracle defined on `emptyErrJson`. -/
def loadsEmptyErr : String → Option JVal :=
  fun s => if s == emptyErrJson then some (.obj [("error", .str (""))]) else none

/-- The driver stdout `\x7b"error": "boom"\x7d`, as printed by the wrapper when
the callable raises `Exception("boom")`. -/
def boomErrJson : String := "\x7b\"error\": \"boom\"\x7d"

/-- A `json.loads` oracle defined on `boomErrJson`. -/
def loadsBoomErr : String → Option JVal :=
  fun s => if s == boomErrJson then some (.obj [("error", .str ("boom"))]) else none

/-- The Ollama chat body after the handler strips the `provider` key (no
explicit `api_key`). -/
def ollamaRestBody : Body :=
  [("type", .str ("chat")), ("model", .str ("m1")),
   ("messages", .arr [.obj [("role", .str ("user")), ("content", .str ("hi"))]])]

/-!
## Theorems

Shared lemmas come first, then one theorem per claim (with its
counterexample and witness where required).
-/

/-- Claim C1: for a key-required provider, the gateway does attempt the
`(user_id, provider)` key-store lookup, but then returns 400
`No API key returned` even when the lookup succeeded: evaluating the handler
with a store that holds `("u1","openai") ↦ "sk-test"` and a caller identity
`u1` produces the 400 rejection instead of proceeding with the key.  (The
no-identity half of the claim does hold: without a `user_id` the handler
returns the `user_id required` 400 before any lookup.) -/
theorem C1_hosted_key_lookup_discarded :
    get_api_key_from_supabase (some storeFix) ("u1") ("openai") = some ("sk-test") ∧
    (llm_proxy_inner cfgFix (some storeFix) none (some ("u1")) ("1.2.3.4")
        (some openaiChatBody) [] 0).1 =
      .reject 400 [("error", .str ("No API key returned for openai")),
                   ("message", .str ("Please verify your API key is set for the provider"))] ∧
    (llm_proxy_inner cfgFix (some storeFix) none none ("1.2.3.4")
        (some openaiChatBody) [] 0).1 =
      .reject 400 [("error", .str ("user_id required but not found in request")),
                   ("message", .str ("Please provide a user_id in the request for testing"))] := by
  refine ⟨rfl, rfl, rfl⟩

/-- Claim C2 counterexample: with authentication enabled and no signing
secret configured, the gateway's startup is not fatal — it substitutes the
literal insecure default secret and serves. -/
theorem C2_default_secret_substituted :
    gateway_startup true none = .serverRuns (some ("insecure-default-secret")) := by
  decide

/-- Claim C2 (amended): when auth is enabled and no secret is configured, the
gateway startup substitutes the fixed default secret `insecure-default-secret`
(with a warning) instead of failing; only the data-store middleware rejects
verification attempts with a 500 configuration error, and service-token
minting raises, when the secret is missing. -/
theorem C2_amended (secret : Option String) (h : optTruthy secret = false) :
    gateway_startup true secret = .serverRuns (some ("insecure-default-secret")) ∧
    (∀ (verify : String → DsVerifyResult) (hdr : String),
      strStartsWith hdr ("Bearer ") = true →
      ds_jwt_required true secret verify (some hdr) =
        .rejected 500 [("error", .str ("Server configuration error")),
                       ("message", .str ("JWT_SECRET not configured"))]) ∧
    (∀ (sign : ServicePayload → String) (uid : Option String),
      create_service_token secret sign uid = .error ("JWT_SECRET not configured")) := by
  refine ⟨?_, ?_, ?_⟩
  · simp [gateway_startup, h]
  · intro verify hdr hb
    simp [ds_jwt_required, hb, h]
  · intro sign uid
    simp [create_service_token, h]

/-- Witness for `C2_amended` at `secret = none`. -/
theorem C2_amended_witness :
    gateway_startup true none = .serverRuns (some ("insecure-default-secret")) ∧
    ds_jwt_required true none (fun _ => .invalid) (some ("Bearer t")) =
      .rejected 500 [("error", .str ("Server configuration error")),
                     ("message", .str ("JWT_SECRET not configured"))] ∧
    create_service_token none (fun _ => "tok") none = .error ("JWT_SECRET not configured") := by
  have h := C2_amended none rfl
  exact ⟨h.1, h.2.1 (fun _ => .invalid) ("Bearer t") (by decide), h.2.2 (fun _ => "tok") none⟩

/-- Claim C4 counterexample: at exactly `now - window_start = 60` the window
has *not* elapsed for the source (`>` not `≥`): a window at count 60 rejects
the call at the 60-second boundary instead of resetting and admitting it. -/
theorem C4_window_boundary :
    rate_limit [(("x"), ⟨60, 0⟩)] 60 ("x") = (false, [(("x"), ⟨61, 0⟩)]) := by
  norm_num [rate_limit, mapGet, mapSet, RATE_LIMIT]

/-- Claim C4 (amended): the limiter is a fixed 60-calls window whose counter
resets only when *strictly more* than 60 seconds have passed
(`now - window_start > 60`); a fresh identifier is inserted with count 1 and
admitted; within the window the counter increments and admits iff the new
count stays at most 60; a rejected check makes `/llm` return 429. -/
theorem C4_amended :
    (∀ (m : RateMap) (now : Rat) (idf : String), mapGet m idf = none →
      rate_limit m now idf = (true, mapSet m idf ⟨1, now⟩)) ∧
    (∀ (m : RateMap) (now : Rat) (idf : String) (e : RateEntry),
      mapGet m idf = some e → now - e.last_reset > 60 →
      rate_limit m now idf = (true, mapSet m idf ⟨1, now⟩)) ∧
    (∀ (m : RateMap) (now : Rat) (idf : String) (e : RateEntry),
      mapGet m idf = some e → ¬(now - e.last_reset > 60) →
      rate_limit m now idf =
        (decide (e.count + 1 ≤ 60), mapSet m idf ⟨e.count + 1, e.last_reset⟩)) ∧
    (∀ cfg client tiktoken uid ip body (m : RateMap) (now : Rat),
      (rate_limit m now (pyOrId uid ip)).1 = false →
      llm_proxy_inner cfg client tiktoken uid ip body m now =
        (.reject 429 [("error", .str ("Rate limit exceeded")),
                      ("message", .str ("Too many requests, please try again later"))],
         (rate_limit m now (pyOrId uid ip)).2)) := by
  refine ⟨?_, ?_, ?_, ?_⟩
  · intro m now idf h
    simp [rate_limit, h]
  · intro m now idf e h hw
    simp [rate_limit, h, hw, RATE_LIMIT]
  · intro m now idf e h hw
    simp [rate_limit, h, hw, RATE_LIMIT]
  · intro cfg client tiktoken uid ip body m now h
    simp [llm_proxy_inner, h]

/-- Witness for `C4_amended`: a fresh identifier, a strictly elapsed window,
the in-window 61st call (rejected), and the resulting 429 from `/llm`. -/
theorem C4_amended_witness :
    rate_limit [] 0 ("x") = (true, [(("x"), ⟨1, 0⟩)]) ∧
    rate_limit [(("x"), ⟨60, 0⟩)] 61 ("x") = (true, [(("x"), ⟨1, 61⟩)]) ∧
    rate_limit [(("x"), ⟨60, 0⟩)] 30 ("x") = (false, [(("x"), ⟨61, 0⟩)]) ∧
    llm_proxy_inner cfgFix none none none ("1.2.3.4") (some openaiChatBody)
        [(("1.2.3.4"), ⟨60, 0⟩)] 0 =
      (.reject 429 [("error", .str ("Rate limit exceeded")),
                    ("message", .str ("Too many requests, please try again later"))],
       [(("1.2.3.4"), ⟨61, 0⟩)]) := by
  have h1 := C4_amended.1 [] 0 ("x") rfl
  have h2 := C4_amended.2.1 [(("x"), ⟨60, 0⟩)] 61 ("x") ⟨60, 0⟩ rfl (by norm_num)
  have h3 := C4_amended.2.2.1 [(("x"), ⟨60, 0⟩)] 30 ("x") ⟨60, 0⟩ rfl (by norm_num)
  have hr : rate_limit [(("1.2.3.4"), ⟨60, 0⟩)] 0 (pyOrId none ("1.2.3.4")) =
      (false, [(("1.2.3.4"), ⟨61, 0⟩)]) := by
    norm_num [rate_limit, mapGet, mapSet, pyOrId, RATE_LIMIT]
  have h4 := C4_amended.2.2.2 cfgFix none none none ("1.2.3.4") (some openaiChatBody)
    [(("1.2.3.4"), ⟨60, 0⟩)] 0 (by rw [hr])
  rw [hr] at h4
  exact ⟨h1, by simpa [mapSet] using h2, by simpa [mapSet] using h3, h4⟩

/-- Claim C5: with auth enabled, a request without a bearer Authorization
header (absent or malformed) is rejected 401 with the rate-limit map left
untouched — before the rate limiter or the credential resolver can run (the
conclusion does not depend on the key store); with auth disabled the same
request passes the gate and proceeds to rate limiting and validation. -/
theorem C5_auth_gate :
    (∀ cfg (verify : String → VerifyResult) client tiktoken (req : HttpRequest)
        (m : RateMap) (now : Rat),
      headerGet req ("Authorization") = none →
      handle_llm cfg true verify client tiktoken req m now = (.reject 401 unauthorizedMissing, m)) ∧
    (∀ cfg (verify : String → VerifyResult) client tiktoken (req : HttpRequest)
        (m : RateMap) (now : Rat) (h : String),
      headerGet req ("Authorization") = some h →
      strStartsWith h ("Bearer ") = false →
      handle_llm cfg true verify client tiktoken req m now = (.reject 401 unauthorizedMissing, m)) ∧
    (∀ cfg (verify : String → VerifyResult) client tiktoken (req : HttpRequest)
        (m : RateMap) (now : Rat),
      handle_llm cfg false verify client tiktoken req m now =
        llm_proxy_inner cfg client tiktoken none (clientIp req) req.jsonBody m now) := by
  refine ⟨?_, ?_, ?_⟩
  · intro cfg verify client tiktoken req m now h
    simp [handle_llm, h]
  · intro cfg verify client tiktoken req m now h hh hb
    simp [handle_llm, hh, hb]
  · intro cfg verify client tiktoken req m now
    simp [handle_llm]

/-- Witness for `C5_auth_gate`: a headerless request and a `Basic` header are
rejected 401 with the map unchanged when auth is on; the headerless request
proceeds into the handler when auth is off. -/
theorem C5_auth_gate_witness :
    handle_llm cfgFix true (fun _ => .invalid) none none ⟨[], "9.9.9.9", none⟩ [] 0 =
      (.reject 401 unauthorizedMissing, []) ∧
    handle_llm cfgFix true (fun _ => .invalid) none none
        ⟨[(("Authorization"), ("Basic x"))], "9.9.9.9", none⟩ [] 0 =
      (.reject 401 unauthorizedMissing, []) ∧
    handle_llm cfgFix false (fun _ => .invalid) none none ⟨[], "9.9.9.9", none⟩ [] 0 =
      llm_proxy_inner cfgFix none none none ("9.9.9.9") none [] 0 := by
  refine ⟨C5_auth_gate.1 cfgFix _ none none _ [] 0 rfl,
          C5_auth_gate.2.1 cfgFix _ none none _ [] 0 ("Basic x") rfl (by decide),
          C5_auth_gate.2.2 cfgFix _ none none _ [] 0⟩

/-- Claim C10: the forward-or-issue header builder never propagates a
failure: when no truthy inbound Authorization header exists and minting the
service token raises (for example with the signing secret unset), the
exception is swallowed and the returned headers contain only Content-Type. -/
theorem C10_forward_or_issue (inboundAuth jwt_secret : Option String)
    (sign : ServicePayload → String) (user_id : Option String) (msg : String)
    (h1 : optTruthy inboundAuth = false)
    (h2 : create_service_token jwt_secret sign user_id = .error msg) :
    get_auth_headers inboundAuth jwt_secret sign user_id = contentTypeHeader := by
  simp [get_auth_headers, h1, h2]

/-- Witness for `C10_forward_or_issue`: no inbound header and no configured
secret yields Content-Type-only headers. -/
theorem C10_forward_or_issue_witness :
    get_auth_headers none none (fun _ => "tok") none = contentTypeHeader :=
  C10_forward_or_issue none none (fun _ => "tok") none ("JWT_SECRET not configured") rfl rfl

/-- A directory lies under itself. -/
theorem underDir_self (d : String) : underDir d d = true := by
  simp [underDir]

/-- A path of the form `d ++ f` with `f` starting in `/` lies under `d`. -/
theorem underDir_append (d f : String) (h : ("/").data <+: f.data) :
    underDir d (d ++ f) = true := by
  have hp : List.isPrefixOf (d ++ ("/")).data (d ++ f).data = true := by
    rw [List.isPrefixOf_iff_prefix, String.data_append, String.data_append]
    exact (List.prefix_append_right_inj d.data).mpr h
  show (((d ++ f) == d) || List.isPrefixOf (d ++ ("/")).data (d ++ f).data) = true
  rw [hp, Bool.or_true]

/-- `rmtree` removes exactly a freshly created batch of paths under the
directory, leaving the pre-existing filesystem intact. -/
theorem rmtree_fresh (d : String) (fs l : List String)
    (hfs : ∀ p ∈ fs, underDir d p = false) (hl : ∀ p ∈ l, underDir d p = true) :
    rmtree d (fs ++ l) = fs := by
  rw [rmtree, List.filter_append]
  have h1 : fs.filter (fun p => !underDir d p) = fs :=
    List.filter_eq_self.mpr (fun a ha => by simp [hfs a ha])
  have h2 : l.filter (fun p => !underDir d p) = [] :=
    List.filter_eq_nil_iff.mpr (fun a ha => by simp [hl a ha])
  rw [h1, h2, List.append_nil]

/-- Claim C6: on every exit path of `/execute` — validation failures before
the temp directory exists, the no-callable early return, a completed run, a
timeout, and an unexpected exception — the final filesystem equals the
initial one (the per-call temporary directory and every file inside it are
removed), and a timed-out execution reaching the subprocess yields
`success=false` with the timeout error message. -/
theorem C6_cleanup (loads : String → Option JVal) (pyParse : String → Option (List PyStmt))
    (run : RunOutcome) (temp_dir : String) (reqJson : Option Body) (fs : List String)
    (hfresh : ∀ p ∈ fs, underDir temp_dir p = false) :
    (execute loads pyParse run temp_dir reqJson fs).2 = fs ∧
    (run = .timedOut → (execute loads pyParse run temp_dir reqJson fs).1.2 = true →
      (execute loads pyParse run temp_dir reqJson fs).1.1 =
        ⟨200, "", .str ("Execution timed out after 10 seconds"), false⟩) := by
  have hTool : underDir temp_dir (temp_dir ++ ("/tool_code.py")) = true :=
    underDir_append _ _ (by decide)
  have hWrap : underDir temp_dir (temp_dir ++ ("/wrapper.py")) = true :=
    underDir_append _ _ (by decide)
  have hSelf : underDir temp_dir temp_dir = true := underDir_self _
  have hBatch2 : ∀ p ∈ [temp_dir, temp_dir ++ ("/tool_code.py")],
      underDir temp_dir p = true := by
    intro p hp
    simp only [List.mem_cons, List.not_mem_nil, or_false] at hp
    rcases hp with rfl | rfl
    · exact hSelf
    · exact hTool
  have hBatch3 : ∀ p ∈ [temp_dir, temp_dir ++ ("/tool_code.py"), temp_dir ++ ("/wrapper.py")],
      underDir temp_dir p = true := by
    intro p hp
    simp only [List.mem_cons, List.not_mem_nil, or_false] at hp
    rcases hp with rfl | rfl | rfl
    · exact hSelf
    · exact hTool
    · exact hWrap
  cases reqJson with
  | none => exact ⟨rfl, by intro _ hran; simp [execute] at hran⟩
  | some data =>
    rcases hc : jLookup data ("code") with _ | v
    · refine ⟨by simp [execute, hc], by intro _ hran; simp [execute, hc] at hran⟩
    · match v with
      | .null | .bool _ | .num _ | .arr _ | .obj _ =>
        refine ⟨by simp [execute, hc], by intro _ hran; simp [execute, hc] at hran⟩
      | .str s =>
        by_cases hs : (s == "") = true
        · refine ⟨by simp [execute, hc, hs], by intro _ hran; simp [execute, hc, hs] at hran⟩
        · rcases he : extract_function_info (pyParse s) with _ | info
          · constructor
            · have : rmtree temp_dir
                  ((fs ++ [temp_dir]) ++ [temp_dir ++ ("/tool_code.py")]) = fs := by
                rw [List.append_assoc]
                exact rmtree_fresh _ _ _ hfresh hBatch2
              simpa [execute, execTryBody, hc, hs, he] using this
            · intro _ hran
              simp [execute, execTryBody, hc, hs, he] at hran
          · constructor
            · have : rmtree temp_dir
                  (((fs ++ [temp_dir]) ++ [temp_dir ++ ("/tool_code.py")])
                    ++ [temp_dir ++ ("/wrapper.py")]) = fs := by
                rw [List.append_assoc, List.append_assoc]
                exact rmtree_fresh _ _ _ hfresh (by simpa using hBatch3)
              cases run <;> simpa [execute, execTryBody, hc, hs, he] using this
            · intro hrun _
              subst hrun
              simp [execute, execTryBody, hc, hs, he]

/-- Witness for `C6_cleanup`: a timed-out run over a filesystem holding one
unrelated file leaves exactly that file and reports the timeout failure. -/
theorem C6_cleanup_witness :
    (execute (fun _ => none) parseToAdd .timedOut ("/tmp/t1") (some execBodyFix)
      ["/etc/passwd"]).2 = ["/etc/passwd"] ∧
    (execute (fun _ => none) parseToAdd .timedOut ("/tmp/t1") (some execBodyFix)
      ["/etc/passwd"]).1.1 =
      ⟨200, "", .str ("Execution timed out after 10 seconds"), false⟩ := by
  have h := C6_cleanup (fun _ => none) parseToAdd .timedOut ("/tmp/t1") (some execBodyFix)
    ["/etc/passwd"]
    (by intro p hp; simp only [List.mem_singleton] at hp; subst hp; decide)
  refine ⟨h.1, h.2 rfl ?_⟩
  simp only [execute, execTryBody, execBodyFix, jLookup, parseToAdd, extract_function_info,
    astAddModule, walkBFS, firstFuncInfo, funcInfoOf]
  decide

/-- `sizeList` distributes over append. -/
theorem sizeList_append (a b : List PyStmt) :
    sizeList (a ++ b) = sizeList a + sizeList b := by
  induction a with
  | nil => simp [sizeList]
  | cons x xs ih => simp [sizeList, ih]; omega

/-- Every statement has at least one node. -/
theorem size_pos (s : PyStmt) : 1 ≤ PyStmt.size s := by
  cases s <;> simp [PyStmt.size]

/-- A statement's children hold strictly fewer nodes than the statement. -/
theorem sizeList_children_lt (s : PyStmt) : sizeList s.children < PyStmt.size s := by
  cases s <;> simp [PyStmt.children, PyStmt.size, sizeList]

/-- Unfolding `walkBFS` on the empty queue. -/
theorem walkBFS_nil : walkBFS [] = [] := by
  simp [walkBFS]

/-- Unfolding `walkBFS` on a queue with a head. -/
theorem walkBFS_cons (s : PyStmt) (rest : List PyStmt) :
    walkBFS (s :: rest) = s :: walkBFS (rest ++ s.children) := by
  rw [walkBFS]

/-- `ast.walk` yields every statement of the initial queue before any nested
statement, so when the queue has a function definition, the walk's first
`FunctionDef` is the queue's first one — whatever trails the queue. -/
theorem firstFuncInfo_walk_toplevel (stmts : List PyStmt) :
    ∀ (r : List PyStmt) (i : FuncInfo), firstTopLevelFuncInfo stmts = some i →
      firstFuncInfo (walkBFS (stmts ++ r)) = some i := by
  induction stmts with
  | nil => intro r i h; simp [firstTopLevelFuncInfo] at h
  | cons s rest ih =>
    intro r i h
    rw [List.cons_append, walkBFS_cons]
    rcases hs : funcInfoOf s with _ | j
    · rw [firstTopLevelFuncInfo, hs] at h
      rw [firstFuncInfo, hs, List.append_assoc]
      exact ih (r ++ s.children) i h
    · rw [firstTopLevelFuncInfo, hs] at h
      rw [firstFuncInfo, hs]
      exact h

/-- A statement containing no `FunctionDef` has children containing none. -/
theorem children_nofunc (s : PyStmt) (h : containsFuncDef s = false) :
    containsFuncDefList s.children = false := by
  cases s with
  | funcDef n a d b => simp [containsFuncDef] at h
  | classDef n b => simpa [containsFuncDef, PyStmt.children] using h
  | simpleStmt => simp [PyStmt.children, containsFuncDefList]
  | compoundStmt b => simpa [containsFuncDef, PyStmt.children] using h

/-- `containsFuncDefList` distributes over append. -/
theorem containsFuncDefList_append (a b : List PyStmt) :
    containsFuncDefList (a ++ b) = (containsFuncDefList a || containsFuncDefList b) := by
  induction a with
  | nil => simp [containsFuncDefList]
  | cons x xs ih => simp [containsFuncDefList, ih, Bool.or_assoc]

/-- A statement with no `FunctionDef` anywhere is itself not one. -/
theorem funcInfoOf_eq_none (s : PyStmt) (h : containsFuncDef s = false) :
    funcInfoOf s = none := by
  cases s <;> first | rfl | simp [containsFuncDef] at h

/-- Fueled induction: a queue with no `FunctionDef` at any depth walks to a
list without one. -/
theorem firstFuncInfo_walk_nofunc (n : Nat) :
    ∀ q : List PyStmt, sizeList q ≤ n → containsFuncDefList q = false →
      firstFuncInfo (walkBFS q) = none := by
  induction n with
  | zero =>
    intro q hq hc
    cases q with
    | nil => simp [walkBFS_nil, firstFuncInfo]
    | cons s rest =>
      exfalso
      have h1 := size_pos s
      have : sizeList (s :: rest) = PyStmt.size s + sizeList rest := rfl
      omega
  | succ n ih =>
    intro q hq hc
    cases q with
    | nil => simp [walkBFS_nil, firstFuncInfo]
    | cons s rest =>
      rw [walkBFS_cons]
      rw [show containsFuncDefList (s :: rest) =
        (containsFuncDef s || containsFuncDefList rest) from rfl] at hc
      rcases Bool.or_eq_false_iff.mp hc with ⟨hcs, hcr⟩
      rw [firstFuncInfo, funcInfoOf_eq_none s hcs]
      apply ih
      · have h1 : sizeList (s :: rest) = PyStmt.size s + sizeList rest := rfl
        have h2 := sizeList_append rest s.children
        have h3 := sizeList_children_lt s
        omega
      · rw [containsFuncDefList_append, hcr, children_nofunc s hcs]
        rfl

/-- Claim C8 counterexample: a source whose only callable is a method nested
inside a class has no top-level callable definition, yet the parse step does
not report `NoCallableFound` — it records the nested method (with `self`
dropped) and proceeds. -/
theorem C8_nested_only_def :
    extract_function_info (some astNestedOnly) = some ⟨"m", [], false⟩ ∧
    firstTopLevelFuncInfo astNestedOnly = none := by
  constructor
  · simp [extract_function_info, astNestedOnly, walkBFS, firstFuncInfo, funcInfoOf,
      PyStmt.children, decoratorIsTool]
  · rfl

/-- Claim C8 (amended): the parse step records the first `FunctionDef` in
breadth-first order — which is the first top-level callable whenever any
top-level definition exists — with its name, its ordered non-`self` parameter
names and the optional `@tool` marker; only a source with no callable
definition at any depth (or one that fails to parse) yields the
`NoCallableFound` response, and then no subprocess is executed. -/
theorem C8_amended :
    (∀ (stmts : List PyStmt) (i : FuncInfo), firstTopLevelFuncInfo stmts = some i →
      extract_function_info (some stmts) = some i) ∧
    (∀ tree : Option (List PyStmt),
      (tree = none ∨ ∃ stmts, tree = some stmts ∧ containsFuncDefList stmts = false) →
      extract_function_info tree = none) ∧
    (∀ (loads : String → Option JVal) (pyParse : String → Option (List PyStmt))
        (run : RunOutcome) (temp_dir : String) (data : Body) (fs : List String)
        (code : String),
      jLookup data ("code") = some (.str code) → (code == "") = false →
      extract_function_info (pyParse code) = none →
      (execute loads pyParse run temp_dir (some data) fs).1 =
        (⟨200, "", .str ("Could not find a valid function definition in the code"), false⟩,
          false)) := by
  refine ⟨?_, ?_, ?_⟩
  · intro stmts i h
    have := firstFuncInfo_walk_toplevel stmts [] i h
    rwa [List.append_nil] at this
  · intro tree h
    rcases h with rfl | ⟨stmts, rfl, hc⟩
    · rfl
    · exact firstFuncInfo_walk_nofunc (sizeList stmts) stmts le_rfl hc
  · intro loads pyParse run temp_dir data fs code hc hs he
    simp [execute, execTryBody, hc, hs, he]

/-- Witness for `C8_amended`: the module `def add(a, b)` is extracted as its
first top-level callable; a class-only module and a parse failure yield no
callable; and `/execute` on a source that parses to an empty module returns
the no-callable response without running a subprocess. -/
theorem C8_amended_witness :
    extract_function_info (some astAddModule) = some ⟨"add", ["a", "b"], false⟩ ∧
    extract_function_info (some [PyStmt.classDef ("C") [PyStmt.simpleStmt]]) = none ∧
    extract_function_info none = none ∧
    (execute (fun _ => none) (fun _ => some []) (.completed 0 "" "") ("/tmp/t1")
        (some execBodyFix) []).1 =
      (⟨200, "", .str ("Could not find a valid function definition in the code"), false⟩,
        false) := by
  refine ⟨C8_amended.1 astAddModule ⟨"add", ["a", "b"], false⟩ rfl,
          C8_amended.2.1 (some [PyStmt.classDef ("C") [PyStmt.simpleStmt]])
            (Or.inr ⟨_, rfl, rfl⟩),
          C8_amended.2.1 none (Or.inl rfl),
          C8_amended.2.2 (fun _ => none) (fun _ => some []) (.completed 0 "" "") ("/tmp/t1")
            execBodyFix [] ("def add(a, b): return a + b") rfl rfl ?_⟩
  simp [extract_function_info, walkBFS_nil, firstFuncInfo]

/-- Claim C7 counterexample: a completed run with exit code 0, empty stderr
and stdout `\x7b"error": ""\x7d` — a JSON object that *does* contain an `error`
key — still yields `success=true`, because the source computes success from
Python truthiness of the diverted error value, and the empty string is falsy.
The claimed iff is therefore false at this input. -/
theorem C7_falsy_error_success :
    (execute loadsEmptyErr parseToAdd (.completed 0 emptyErrJson "") ("/tmp/t1")
        (some execBodyFix) []).1.1 = ⟨200, "", .str (""), true⟩ ∧
    loadsEmptyErr emptyErrJson = some (.obj [("error", .str (""))]) := by
  constructor
  · simp only [execute, execTryBody, execBodyFix, jLookup, parseToAdd,
      extract_function_info, astAddModule, walkBFS, firstFuncInfo, funcInfoOf]
    rfl
  · rfl

/-- Claim C7 (amended): for a completed run, the response's error field is
the stdout object's `error` value when the stripped stdout parses to a JSON
object containing `error`, and the stripped stderr otherwise; `success` is
true iff the exit code is zero *and that final error value is Python-falsy*
(so a falsy `error` value — e.g. the empty string — still counts as success);
in particular a callable raising an exception with a non-empty message (the
wrapper prints `\x7b"error": str(e)\x7d`, exits 0, no stderr) yields
`success=false` with the message as the error. -/
theorem C7_amended :
    (∀ (loads : String → Option JVal) (rc : Int) (out err : String),
      (processOutput loads rc out err).success =
        (decide (rc = 0) && !pyTruthy (processOutput loads rc out err).error)) ∧
    (∀ (loads : String → Option JVal) (rc : Int) (out err : String) (parsed : JVal),
      (pyStrip out == "") = false → loads (pyStrip out) = some parsed →
      isObjWithError parsed = true →
      processOutput loads rc out err =
        ⟨200, "", jGetDflt parsed ("error") .null,
          decide (rc = 0) && !pyTruthy (jGetDflt parsed ("error") .null)⟩) ∧
    (∀ (loads : String → Option JVal) (rc : Int) (out err : String),
      ((pyStrip out == "") = true ∨ loads (pyStrip out) = none) →
      processOutput loads rc out err =
        ⟨200, pyStrip out, .str (pyStrip err),
          decide (rc = 0) && !pyTruthy (.str (pyStrip err))⟩) ∧
    (∀ (loads : String → Option JVal) (pyParse : String → Option (List PyStmt))
        (temp_dir : String) (data : Body) (fs : List String) (code out msg : String),
      jLookup data ("code") = some (.str code) → (code == "") = false →
      (extract_function_info (pyParse code)).isSome = true →
      (pyStrip out == "") = false →
      loads (pyStrip out) = some (.obj [("error", .str msg)]) →
      (msg == "") = false →
      (execute loads pyParse (.completed 0 out "") temp_dir (some data) fs).1.1 =
        ⟨200, "", .str msg, false⟩) := by
  refine ⟨?_, ?_, ?_, ?_⟩
  · intro loads rc out err
    rfl
  · intro loads rc out err parsed hne hl hp
    have hne2 : (pyStrip out != "") = true := by
      simpa [bne] using hne
    simp [processOutput, hne2, hl, hp]
  · intro loads rc out err h
    rcases h with h | h
    · have : (pyStrip out != "") = false := by simpa [bne] using h
      simp [processOutput, this]
    · rcases hne : (pyStrip out != "") with _ | _
      · simp [processOutput, hne]
      · simp [processOutput, hne, h]
  · intro loads pyParse temp_dir data fs code out msg hc hs hext hone hl hmsg
    rcases he : extract_function_info (pyParse code) with _ | info
    · rw [he] at hext; simp at hext
    · have hne2 : (pyStrip out != "") = true := by simpa [bne] using hone
      simp only [execute, execTryBody, hc, hs, he]
      simp [processOutput, hne2, hl, isObjWithError, jLookup, jGetDflt, jGetD, pyTruthy]
      simpa using hmsg

/-- Witness for `C7_amended`: the success shape on a concrete run, the
error-diversion and the passthrough branches on concrete streams, and the
raising-callable instance with message `boom`. -/
theorem C7_amended_witness :
    (processOutput loadsBoomErr 0 boomErrJson "").success =
      (decide ((0 : Int) = 0) &&
        !pyTruthy (processOutput loadsBoomErr 0 boomErrJson "").error) ∧
    processOutput loadsBoomErr 0 boomErrJson "" =
      ⟨200, "", jGetDflt (.obj [("error", .str ("boom"))]) ("error") .null,
        decide ((0 : Int) = 0) &&
          !pyTruthy (jGetDflt (.obj [("error", .str ("boom"))]) ("error") .null)⟩ ∧
    processOutput loadsBoomErr 1 ("plain text") ("oops") =
      ⟨200, pyStrip ("plain text"), .str (pyStrip ("oops")),
        decide ((1 : Int) = 0) && !pyTruthy (.str (pyStrip ("oops")))⟩ ∧
    (execute loadsBoomErr parseToAdd (.completed 0 boomErrJson "") ("/tmp/t1")
        (some execBodyFix) []).1.1 = ⟨200, "", .str ("boom"), false⟩ := by
  refine ⟨C7_amended.1 loadsBoomErr 0 boomErrJson "",
          C7_amended.2.1 loadsBoomErr 0 boomErrJson "" (.obj [("error", .str ("boom"))])
            (by decide) ?_ rfl,
          C7_amended.2.2.1 loadsBoomErr 1 ("plain text") ("oops") (Or.inr ?_),
          C7_amended.2.2.2 loadsBoomErr parseToAdd ("/tmp/t1") execBodyFix []
            ("def add(a, b): return a + b") boomErrJson ("boom") rfl rfl ?_ (by decide) ?_
            (by decide)⟩
  · show loadsBoomErr (pyStrip boomErrJson) = some (.obj [("error", .str ("boom"))])
    rfl
  · show loadsBoomErr (pyStrip ("plain text")) = none
    rfl
  · simp [extract_function_info, parseToAdd, astAddModule, walkBFS, firstFuncInfo, funcInfoOf]
  · show loadsBoomErr (pyStrip boomErrJson) = some (.obj [("error", .str ("boom"))])
    rfl

/-- Claim C9: for every provider the tokenize operation completes locally
with status 200 and a `\x7btokens, token_count\x7d` body, and never produces an
upstream HTTP request: the OpenAI path uses the `tiktoken` encoder when the
library is importable, and every other case — OpenAI without the library, and
the four remaining providers — falls back to the whitespace split, whose
`token_count` is the number of whitespace-separated pieces of the text. -/
theorem C9_tokenize_local (cfg : GatewayConfig) (tiktoken : Option Tokenizer)
    (p : Provider) (body : Body) (api_key : Option String)
    (hkey : (!optTruthy api_key && !(localProviders.contains p)) = false) :
    (∀ enc : Tokenizer, p = .openai → tiktoken = some enc →
      proxy_llm_request cfg tiktoken p ("tokenize") body api_key =
        .ok (tokenizeResult (intTokens (enc (pyGetStrD body ("model") ("gpt-4.1"))
          (pyGetStrD body ("text") ("")))))) ∧
    (p ≠ .openai ∨ tiktoken = none →
      proxy_llm_request cfg tiktoken p ("tokenize") body api_key =
        .ok (tokenizeResult ((pySplit (pyGetStrD body ("text") (""))).map .str))) ∧
    (∀ toks : List JVal, tokenizeResult toks =
      .localResp 200 (.obj [("tokens", .arr toks),
                            ("token_count", .num (toks.length : Rat))])) := by
  refine ⟨?_, ?_, fun toks => rfl⟩
  · intro enc hp henc
    subst hp; subst henc
    simp only [proxy_llm_request]
    rw [hkey]
    simp
  · intro h
    cases p with
    | openai =>
      rcases h with h | h
      · exact absurd rfl h
      · subst h
        simp only [proxy_llm_request]
        rw [hkey]
        simp
    | anthropic =>
      simp only [proxy_llm_request]
      rw [hkey]
      simp
    | gemini =>
      simp only [proxy_llm_request]
      rw [hkey]
      simp
    | lmstudio =>
      simp only [proxy_llm_request]
      rw [hkey]
      simp
    | ollama =>
      simp only [proxy_llm_request]
      rw [hkey]
      simp

/-- Witness for `C9_tokenize_local`: the OpenAI native-tokenizer path on a
three-id encoding, and the Ollama whitespace fallback on `" a b  c "`. -/
theorem C9_tokenize_local_witness :
    proxy_llm_request cfgFix (some (fun _ _ => [1, 2, 3])) .openai ("tokenize")
        [("model", .str ("m")), ("text", .str (" a b  c "))] (some ("k")) =
      .ok (.localResp 200 (.obj
        [("tokens", .arr [.num 1, .num 2, .num 3]), ("token_count", .num 3)])) ∧
    proxy_llm_request cfgFix none .ollama ("tokenize")
        [("model", .str ("m")), ("text", .str (" a b  c "))] none =
      .ok (.localResp 200 (.obj
        [("tokens", .arr [.str ("a"), .str ("b"), .str ("c")]), ("token_count", .num 3)])) := by
  constructor
  · have h := (C9_tokenize_local cfgFix (some (fun _ _ => [1, 2, 3])) .openai
      [("model", .str ("m")), ("text", .str (" a b  c "))] (some ("k")) (by decide)).1
      (fun _ _ => [1, 2, 3]) rfl rfl
    rw [h]
    rfl
  · have h := (C9_tokenize_local cfgFix none .ollama
      [("model", .str ("m")), ("text", .str (" a b  c "))] none (by decide)).2.1
      (Or.inl (by simp))
    rw [h]
    rfl

/-- Key-preserving rewrite of values (the first half of `pyDictMerge`) keeps
a key absent. -/
theorem jLookup_mergeMap_isNone (a b : Body) (k : String)
    (ha : (jLookup a k).isNone = true) :
    (jLookup (a.map (fun kv =>
      match jLookup b kv.1 with | some v => (kv.1, v) | none => kv)) k).isNone = true := by
  induction a with
  | nil => simp [jLookup]
  | cons kv rest ih =>
    obtain ⟨k2, v2⟩ := kv
    by_cases hk : k2 = k
    · subst hk
      simp [jLookup] at ha
    · rw [jLookup, if_neg hk] at ha
      rcases hb : jLookup b k2 with _ | w <;>
        simp only [List.map_cons, hb] <;> rw [jLookup, if_neg hk] <;> exact ih ha

/-- Filtering cannot introduce a key. -/
theorem jLookup_filter_isNone (b : Body) (pred : String × JVal → Bool) (k : String)
    (hb : (jLookup b k).isNone = true) :
    (jLookup (b.filter pred) k).isNone = true := by
  induction b with
  | nil => simp [jLookup]
  | cons kv rest ih =>
    obtain ⟨k2, v2⟩ := kv
    by_cases hk : k2 = k
    · subst hk
      simp [jLookup] at hb
    · rw [jLookup, if_neg hk] at hb
      by_cases hp : pred (k2, v2) = true
      · rw [List.filter_cons_of_pos hp, jLookup, if_neg hk]
        exact ih hb
      · rw [List.filter_cons_of_neg (by simpa using hp)]
        exact ih hb

/-- A key absent from both halves is absent from their concatenation. -/
theorem jLookup_append_isNone (a b : Body) (k : String)
    (ha : (jLookup a k).isNone = true) (hb : (jLookup b k).isNone = true) :
    (jLookup (a ++ b) k).isNone = true := by
  induction a with
  | nil => simpa using hb
  | cons kv rest ih =>
    obtain ⟨k2, v2⟩ := kv
    by_cases hk : k2 = k
    · subst hk
      simp [jLookup] at ha
    · rw [jLookup, if_neg hk] at ha
      rw [List.cons_append, jLookup, if_neg hk]
      exact ih ha

/-- A key absent from both dicts is absent from their `\x7b**a, **b\x7d` merge. -/
theorem jLookup_merge_isNone (a b : Body) (k : String)
    (ha : (jLookup a k).isNone = true) (hb : (jLookup b k).isNone = true) :
    (jLookup (pyDictMerge a b) k).isNone = true := by
  unfold pyDictMerge
  exact jLookup_append_isNone _ _ _ (jLookup_mergeMap_isNone a b k ha)
    (jLookup_filter_isNone b _ k hb)

/-- Claim C3 counterexample: an Ollama chat call whose body carries
`api_key: "k1"` is forwarded with no credential at all — the URL and headers
of the upstream request never mention `k1`, so the body's key is not "used
verbatim as the credential"; the upstream JSON body also lacks `api_key`. -/
theorem C3_explicit_key_not_used :
    (llm_proxy_inner cfgFix (some storeFix) none none ("1.2.3.4")
        (some ollamaChatBodyWithKey) [] 0).1 = .forwardUpstream ollamaChatUpstream ∧
    mentionsKey ollamaChatUpstream ("k1") = false ∧
    (jLookup ((ollamaChatUpstream.jsonBody).getD []) ("api_key")).isNone = true := by
  refine ⟨rfl, by decide, rfl⟩

/-- Claim C3 (amended): an explicit `api_key` field in the call body is
ignored rather than used — the adapter behaves identically with and without
the field (the credential argument comes only from the key-store resolution) —
and the upstream JSON body the adapter builds never contains an `api_key`
key, provided the caller's `options` map does not itself carry one; so the
body's key never reaches the upstream request. -/
theorem C3_amended :
    (∀ cfg tiktoken p (req_type : String) (b : Body) api_key (v : JVal),
      proxy_llm_request cfg tiktoken p req_type ((("api_key"), v) :: b) api_key =
        proxy_llm_request cfg tiktoken p req_type b api_key) ∧
    (∀ cfg tiktoken p (req_type : String) (b : Body) api_key (u : UpstreamReq) (rb : Body),
      proxy_llm_request cfg tiktoken p req_type b api_key = .ok (.upstreamCall u) →
      (jLookup (jOptions b) ("api_key")).isNone = true →
      u.jsonBody = some rb →
      (jLookup rb ("api_key")).isNone = true) := by
  constructor
  · intro cfg tiktoken p req_type b api_key v
    cases p <;>
      simp [proxy_llm_request, jGetD, jOptions, pyGetStrD, fstrModel, jLookup]
  · intro cfg tiktoken p req_type b api_key u rb h hopts hrb
    cases p <;>
      (simp only [proxy_llm_request] at h
       split at h
       · simp at h
       · by_cases ht : req_type = "tokenize"
         · rw [if_pos ht] at h
           rcases tiktoken with _ | enc <;> simp [tokenizeResult] at h
         · rw [if_neg ht] at h
           by_cases h1 : req_type = "chat"
           · rw [if_pos h1] at h
             simp only [Except.ok.injEq, ProxyStep.upstreamCall.injEq] at h
             subst h
             simp at hrb
             subst hrb
             first
             | rfl
             | exact jLookup_merge_isNone _ _ _ rfl hopts
           · rw [if_neg h1] at h
             by_cases h2 : req_type = "embeddings"
             · rw [if_pos h2] at h
               simp only [Except.ok.injEq, ProxyStep.upstreamCall.injEq] at h
               subst h
               simp at hrb
               subst hrb
               first
               | rfl
               | exact jLookup_merge_isNone _ _ _ rfl hopts
             · rw [if_neg h2] at h
               by_cases h3 : req_type = "models"
               · rw [if_pos h3] at h
                 simp only [Except.ok.injEq, ProxyStep.upstreamCall.injEq] at h
                 subst h
                 simp at hrb
               · rw [if_neg h3] at h
                 simp only [Except.ok.injEq, ProxyStep.upstreamCall.injEq] at h
                 subst h
                 simp at hrb
                 subst hrb
                 rfl)

/-- Witness for `C3_amended`: prepending `api_key: "k1"` to the Ollama chat
body leaves the adapter's result unchanged, and the concrete upstream body it
builds contains no `api_key`. -/
theorem C3_amended_witness :
    proxy_llm_request cfgFix none .ollama ("chat")
        ((("api_key"), JVal.str ("k1")) :: ollamaRestBody) none =
      proxy_llm_request cfgFix none .ollama ("chat") ollamaRestBody none ∧
    (jLookup ((ollamaChatUpstream.jsonBody).getD []) ("api_key")).isNone = true := by
  refine ⟨C3_amended.1 cfgFix none .ollama ("chat") ollamaRestBody none (JVal.str ("k1")),
          C3_amended.2 cfgFix none .ollama ("chat") ollamaRestBody none
            ollamaChatUpstream ((ollamaChatUpstream.jsonBody).getD []) rfl rfl rfl⟩

end LlmProxy
